import Mathlib

/-!
Shallow embedding of the session/emotion-detection data model of the
facial-emotion-recognition service (`server.js` route handlers backed by the
SQLite schema and `Database` helper methods of `js/app.js`).

Rows of the relational tables become Lean structures; the database becomes an
explicit record of row lists plus AUTOINCREMENT counters; each route handler
becomes a pure function from a database state (and request payload) to a
typed result together with the next database state.  SQL `NULL`-able columns
become `Option`; `REAL` columns become `ℚ`; `INTEGER` columns become `Int`;
timestamps are modelled as integer seconds.
-/

namespace EmotionService

abbrev Timestamp := Int

/-- Row of the `users` table (schema.sql): identity record with unique
handle/email, credential hash and an active flag. -/
structure User where
  id : Int
  username : String
  email : String
  password_hash : String
  full_name : Option String
  is_active : Bool
  last_login : Option Timestamp
deriving DecidableEq

/-- Row of the `sessions` table: a bounded recording interval with a running
`total_detections` counter.  The counter column is `INTEGER DEFAULT 0` and
nullable (the `PUT /:id/end` route can store `NULL` into it), hence
`Option Int`. -/
structure Session where
  id : Int
  user_id : Option Int
  session_name : Option String
  start_time : Timestamp
  end_time : Option Timestamp
  duration_seconds : Option Int
  total_detections : Option Int
  accuracy_score : Option ℚ
  is_completed : Bool
deriving DecidableEq

/-- Row of the `emotions` table: one detection event belonging to a session. -/
structure Emotion where
  id : Int
  session_id : Int
  emotion_type : String
  confidence_score : ℚ
  timestamp : Timestamp
  age_estimate : Option Int
  gender_estimate : Option String
  image_id : Option Int
  processing_time_ms : Option Int
deriving DecidableEq

/-- Row of the `emotion_summaries` table (schema.sql).  The schema declares it
but no query in the repository ever inserts into or updates it. -/
structure EmotionSummaryStored where
  id : Int
  user_id : Option Int
  session_id : Option Int
  emotion_type : String
  count : Int
  average_confidence : Option ℚ
  percentage_of_total : Option ℚ
deriving DecidableEq

/-- The persistent store: the row lists of the relevant tables plus the
AUTOINCREMENT counters used to assign fresh primary keys. -/
structure DB where
  users : List User
  sessions : List Session
  emotions : List Emotion
  emotion_summaries : List EmotionSummaryStored
  nextUserId : Int
  nextSessionId : Int
  nextEmotionId : Int
deriving DecidableEq

/-- The empty freshly-initialized database. -/
def initDB : DB :=
  { users := [], sessions := [], emotions := [], emotion_summaries := []
    nextUserId := 1, nextSessionId := 1, nextEmotionId := 1 }

/-- Error taxonomy of the endpoint boundary: 400 validation, 404 not-found,
409 conflict, 401 unauthorized responses of the route handlers. -/
inductive ApiError where
  | validation (msg : String)
  | notFound (msg : String)
  | conflict (msg : String)
  | unauthorized (msg : String)
deriving DecidableEq

/-- The fixed emotion enumeration of the Joi `emotionSchema`
(`routes/emotions.js`). -/
def emotionLabels : List String :=
  ["happy", "sad", "angry", "surprised", "fearful", "disgusted", "neutral"]

/-- Request body of `POST /api/emotions` after JSON decoding. -/
structure EmotionPayload where
  sessionId : Int
  emotionType : String
  confidenceScore : ℚ
  ageEstimate : Option Int
  genderEstimate : Option String
  imageId : Option Int
  processingTimeMs : Option Int
deriving DecidableEq

def emotionTypeMsg : String := "emotionType must be one of the seven allowed labels"
def confidenceMinMsg : String := "confidenceScore must be greater than or equal to 0"
def confidenceMaxMsg : String := "confidenceScore must be less than or equal to 1"
def ageMinMsg : String := "ageEstimate must be greater than or equal to 0"
def ageMaxMsg : String := "ageEstimate must be less than or equal to 120"
def genderMsg : String := "genderEstimate must be one of male, female"
def processingTimeMsg : String := "processingTimeMs must be greater than or equal to 0"

/-- The Joi `emotionSchema` check of `POST /api/emotions`: each rule is
checked in schema key order and (Joi's default `abortEarly`) the message of
the first violated rule is reported via `error.details[0].message`. -/
def validateEmotionPayload (p : EmotionPayload) : Option String :=
  if ¬ (p.emotionType ∈ emotionLabels) then some emotionTypeMsg
  else if p.confidenceScore < 0 then some confidenceMinMsg
  else if 1 < p.confidenceScore then some confidenceMaxMsg
  else if p.ageEstimate.any (fun a => decide (a < 0)) then some ageMinMsg
  else if p.ageEstimate.any (fun a => decide (120 < a)) then some ageMaxMsg
  else if p.genderEstimate.any (fun g => ¬ (g == "male" || g == "female")) then some genderMsg
  else if p.processingTimeMs.any (fun t => decide (t < 0)) then some processingTimeMsg
  else none

/-- `POST /api/emotions` (`routes/emotions.js`): validate the payload, check
the referenced session exists (`SELECT id FROM sessions WHERE id = ?`),
insert the emotion row (`Database.createEmotion`) with a server-assigned
timestamp, then increment the session counter
(`UPDATE sessions SET total_detections = total_detections + 1 WHERE id = ?`;
SQL arithmetic on `NULL` yields `NULL`, hence `Option.map`).
Returns the new row id. -/
def postApiEmotions (db : DB) (p : EmotionPayload) (now : Timestamp) :
    Except ApiError Int × DB :=
  match validateEmotionPayload p with
  | some msg => (.error (.validation msg), db)
  | none =>
    match db.sessions.find? (fun s => s.id == p.sessionId) with
    | none => (.error (.notFound "Session not found"), db)
    | some _ =>
      let row : Emotion :=
        { id := db.nextEmotionId, session_id := p.sessionId
          emotion_type := p.emotionType, confidence_score := p.confidenceScore
          timestamp := now, age_estimate := p.ageEstimate
          gender_estimate := p.genderEstimate, image_id := p.imageId
          processing_time_ms := p.processingTimeMs }
      (.ok db.nextEmotionId,
        { db with
          emotions := db.emotions ++ [row]
          sessions := db.sessions.map (fun s =>
            if s.id == p.sessionId then
              { s with total_detections := s.total_detections.map (· + 1) }
            else s)
          nextEmotionId := db.nextEmotionId + 1 })

/-- `DELETE /api/emotions/:id`: look the row up
(`SELECT id, session_id FROM emotions WHERE id = ?`), 404 when absent,
otherwise delete it and decrement the owning session's counter
(`UPDATE sessions SET total_detections = total_detections - 1 WHERE id = ?`,
with no floor at zero). -/
def deleteApiEmotionsId (db : DB) (emotionId : Int) : Except ApiError Unit × DB :=
  match db.emotions.find? (fun e => e.id == emotionId) with
  | none => (.error (.notFound "Emotion not found"), db)
  | some e =>
    (.ok (),
      { db with
        emotions := db.emotions.filter (fun r => ! (r.id == emotionId))
        sessions := db.sessions.map (fun s =>
          if s.id == e.session_id then
            { s with total_detections := s.total_detections.map (· - 1) }
          else s) })

/-- The emotion rows of one session
(`... FROM emotions WHERE session_id = ?`). -/
def sessionEmotions (db : DB) (sessionId : Int) : List Emotion :=
  db.emotions.filter (fun e => e.session_id == sessionId)

/-- Result row shape of `Database.getEmotionSummary`:
`emotion_type, COUNT(*), AVG(confidence_score), MIN(timestamp), MAX(timestamp)`. -/
structure SummaryRow where
  emotion_type : String
  count : Nat
  avg_confidence : ℚ
  first_detection : Timestamp
  last_detection : Timestamp
deriving DecidableEq

/-- SQL `MIN` over a (nonempty) group of integer values. -/
def listMinD (l : List Int) : Int :=
  match l with
  | [] => 0
  | x :: xs => xs.foldl min x

/-- SQL `MAX` over a (nonempty) group of integer values. -/
def listMaxD (l : List Int) : Int :=
  match l with
  | [] => 0
  | x :: xs => xs.foldl max x

/-- One `GROUP BY emotion_type` output row of `Database.getEmotionSummary`,
computed for group key `t` over the rows `le` of the session:
`COUNT(*)`, `AVG(confidence_score)` (sum divided by count),
`MIN(timestamp)`, `MAX(timestamp)`. -/
def summaryRowFor (le : List Emotion) (t : String) : SummaryRow :=
  let grp := le.filter (fun e => e.emotion_type == t)
  { emotion_type := t
    count := grp.length
    avg_confidence := (grp.map (·.confidence_score)).sum / (grp.length : ℚ)
    first_detection := listMinD (grp.map (·.timestamp))
    last_detection := listMaxD (grp.map (·.timestamp)) }

/-- The multiset of `GROUP BY emotion_type` rows produced by
`Database.getEmotionSummary` for a session: one row per distinct
`emotion_type` value occurring among the session's emotions.  The list
order here is canonical bookkeeping only: the query's output ordering is
modelled separately by `getEmotionSummaryResult`, because
`ORDER BY count DESC` does not determine the relative order of rows with
equal counts. -/
def summaryGroups (db : DB) (sessionId : Int) : List SummaryRow :=
  (((sessionEmotions db sessionId).map (·.emotion_type)).dedup).map
    (fun t => summaryRowFor (sessionEmotions db sessionId) t)

/-- Sortedness demanded by the query's `ORDER BY count DESC`. -/
def countSortedDesc (out : List SummaryRow) : Prop :=
  out.Pairwise (fun a b => b.count ≤ a.count)

instance (out : List SummaryRow) : Decidable (countSortedDesc out) := by
  unfold countSortedDesc; infer_instance

/-- Admissible results of `GET /api/emotions/summary/session/:sessionId`
(via `Database.getEmotionSummary`): the SQL
`GROUP BY emotion_type ORDER BY count DESC` constrains the output to be
some arrangement of the group rows that is sorted by count descending; it
carries no secondary sort key, so the relative order of rows with equal
counts is not determined by the query. -/
def getEmotionSummaryResult (db : DB) (sessionId : Int) (out : List SummaryRow) : Prop :=
  out.Perm (summaryGroups db sessionId) ∧ countSortedDesc out

instance (db : DB) (sessionId : Int) (out : List SummaryRow) :
    Decidable (getEmotionSummaryResult db sessionId out) := by
  unfold getEmotionSummaryResult; exact instDecidableAnd

/-- Lexicographic comparison of character lists (alphabetical order on the
lowercase ASCII emotion labels). -/
def charListLe : List Char → List Char → Bool
  | [], _ => true
  | _ :: _, [] => false
  | x :: xs, y :: ys =>
    if x < y then true
    else if y < x then false
    else charListLe xs ys

/-- Alphabetical (lexicographic) order on emotion labels. -/
def labelLe (a b : String) : Bool := charListLe a.data b.data

/-- The ordering claimed by the specification for `summarize`: count
descending with ties broken by emotion label ascending. -/
def specTieBreakOrder (out : List SummaryRow) : Prop :=
  out.Pairwise (fun a b =>
    b.count < a.count ∨ (a.count = b.count ∧ labelLe a.emotion_type b.emotion_type = true))

instance (out : List SummaryRow) : Decidable (specTieBreakOrder out) := by
  unfold specTieBreakOrder; infer_instance

/-- Per-label full aggregation over the currently stored observations,
stated the way the specification words it: `COUNT`, `AVG`, `MIN`/`MAX`
timestamp of the emotions of the session carrying the given label, `none`
when the label was never observed in the session. -/
def specSummaryAggregate (db : DB) (sessionId : Int) (t : String) : Option SummaryRow :=
  let obs := db.emotions.filter (fun e => e.session_id == sessionId && e.emotion_type == t)
  if obs.isEmpty then none
  else some
    { emotion_type := t
      count := obs.length
      avg_confidence := (obs.map (·.confidence_score)).sum / (obs.length : ℚ)
      first_detection := listMinD (obs.map (·.timestamp))
      last_detection := listMaxD (obs.map (·.timestamp)) }

/-- `POST /api/sessions` (`routes/sessions.js`): Joi `sessionSchema` requires
`sessionName` of length 3..100; on success inserts a session row whose
columns take their schema defaults (`start_time` = current time,
`total_detections` = 0, `is_completed` = 0). -/
def postApiSessions (db : DB) (sessionName : String) (now : Timestamp) :
    Except ApiError Int × DB :=
  if sessionName.length < 3 ∨ 100 < sessionName.length then
    (.error (.validation "sessionName length must be between 3 and 100"), db)
  else
    (.ok db.nextSessionId,
      { db with
        sessions := db.sessions ++
          [{ id := db.nextSessionId, user_id := none
             session_name := some sessionName, start_time := now
             end_time := none, duration_seconds := none
             total_detections := some 0, accuracy_score := none
             is_completed := false }]
        nextSessionId := db.nextSessionId + 1 })

/-- Request body of `PUT /api/sessions/:id/end`; every field may be absent,
in which case `NULL` is stored. -/
structure EndSessionBody where
  endTime : Option Timestamp
  duration : Option Int
  totalDetections : Option Int
  accuracy : Option ℚ
deriving DecidableEq

/-- Effect of `PUT /api/sessions/:id/end` on one matching session row: the
route's unconditional
`UPDATE sessions SET end_time = ?, duration_seconds = ?, total_detections = ?, accuracy_score = ? WHERE id = ?`
write, followed by the schema trigger `update_sessions_duration`, which fires
exactly when the update turns a `NULL` `end_time` non-`NULL` and then
overwrites `duration_seconds` with
`(julianday(NEW.end_time) - julianday(NEW.start_time)) * 86400`, i.e. the
difference of the two timestamps in seconds. -/
def applyEndUpdate (b : EndSessionBody) (s : Session) : Session :=
  let s' := { s with
    end_time := b.endTime, duration_seconds := b.duration
    total_detections := b.totalDetections, accuracy_score := b.accuracy }
  if s.end_time = none ∧ b.endTime.isSome then
    { s' with duration_seconds := b.endTime.map (fun te => te - s.start_time) }
  else s'

/-- `PUT /api/sessions/:id/end` (`routes/sessions.js`): no validation and no
existence check — the update is applied to whatever rows match the id (none
when the session does not exist) and the route always answers
`Session ended successfully`. -/
def putApiSessionsIdEnd (db : DB) (sessionId : Int) (b : EndSessionBody) :
    Except ApiError Unit × DB :=
  (.ok (),
    { db with
      sessions := db.sessions.map (fun s =>
        if s.id == sessionId then applyEndUpdate b s else s) })

/-- Request body of `POST /api/auth/register`. -/
structure RegisterPayload where
  username : String
  email : String
  password : String
  fullName : Option String
deriving DecidableEq

/-- Split a character list at every occurrence of the given character. -/
def splitOnChar (c : Char) : List Char → List (List Char)
  | [] => [[]]
  | x :: xs =>
    let r := splitOnChar c xs
    if x == c then [] :: r
    else
      match r with
      | [] => [[x]]
      | y :: ys => (x :: y) :: ys

/-- Stand-in for the third-party email format check (Joi's `.email()` rule,
an external library the repository consumes as a black box): a plausible
well-formedness test whose exact grammar is irrelevant to the claims, which
only depend on its pass/fail outcome. -/
def emailFormatOk (e : String) : Bool :=
  match splitOnChar '@' e.data with
  | [lp, dom] => ¬ lp.isEmpty && ¬ dom.isEmpty && dom.contains '.'
  | _ => false

/-- Stand-in for the third-party `bcrypt.hash` (external collaborator,
consumed as a black box): an injective tagging suffices because the claims
depend only on hash/compare agreement, never on the hash's contents. -/
def bcryptHash (password : String) : String := "bcrypt$" ++ password

/-- Stand-in for `bcrypt.compare`: succeeds exactly when the password hashes
to the stored digest. -/
def bcryptCompare (password digest : String) : Bool := bcryptHash password == digest

def usernameMsg : String := "username must be 3 to 30 alphanumeric characters"
def emailFormatMsg : String := "email must be a valid email"
def passwordMsg : String := "password length must be at least 6 characters long"
def fullNameMsg : String := "fullName length must be between 2 and 100"
def passwordEmptyMsg : String := "password is not allowed to be empty"

/-- The Joi `registerSchema` check: `username` alphanumeric of length 3..30,
`email` well-formed, `password` of length at least 6, optional `fullName` of
length 2..100; the first violated rule's message is reported. -/
def validateRegister (r : RegisterPayload) : Option String :=
  if ¬ (3 ≤ r.username.length ∧ r.username.length ≤ 30 ∧ r.username.data.all Char.isAlphanum) then
    some usernameMsg
  else if ¬ emailFormatOk r.email then some emailFormatMsg
  else if r.password.length < 6 then some passwordMsg
  else if r.fullName.any (fun f => decide (f.length < 2) || decide (100 < f.length)) then
    some fullNameMsg
  else none

/-- `Database.findUserByEmail`:
`SELECT * FROM users WHERE email = ? AND is_active = 1` (first row). -/
def findUserByEmail (db : DB) (email : String) : Option User :=
  db.users.find? (fun u => u.email == email && u.is_active)

/-- `Database.findUserByUsername`:
`SELECT * FROM users WHERE username = ? AND is_active = 1` (first row). -/
def findUserByUsername (db : DB) (username : String) : Option User :=
  db.users.find? (fun u => u.username == username && u.is_active)

/-- `POST /api/auth/register` (`routes/auth.js`): validate the payload, then
reject with 409 `User already exists with this email` when an active user
already holds the email, then with 409 `Username already taken` when one
holds the username, otherwise insert the user (active, storing the password
hash) and answer with the fresh id. -/
def postApiAuthRegister (db : DB) (r : RegisterPayload) : Except ApiError Int × DB :=
  match validateRegister r with
  | some msg => (.error (.validation msg), db)
  | none =>
    if (findUserByEmail db r.email).isSome then
      (.error (.conflict "User already exists with this email"), db)
    else if (findUserByUsername db r.username).isSome then
      (.error (.conflict "Username already taken"), db)
    else
      (.ok db.nextUserId,
        { db with
          users := db.users ++
            [{ id := db.nextUserId, username := r.username, email := r.email
               password_hash := bcryptHash r.password, full_name := r.fullName
               is_active := true, last_login := none }]
          nextUserId := db.nextUserId + 1 })

/-- `POST /api/auth/login` (`routes/auth.js`): validate the body (Joi
`loginSchema`), look the user up by email; answer
401 `Invalid credentials` both when no active user holds the email and when
`bcrypt.compare` rejects the password; on success update `last_login` and
answer with the user id. -/
def postApiAuthLogin (db : DB) (email password : String) (now : Timestamp) :
    Except ApiError Int × DB :=
  if ¬ emailFormatOk email then (.error (.validation emailFormatMsg), db)
  else if password == "" then (.error (.validation passwordEmptyMsg), db)
  else
    match findUserByEmail db email with
    | none => (.error (.unauthorized "Invalid credentials"), db)
    | some u =>
      if ¬ bcryptCompare password u.password_hash then
        (.error (.unauthorized "Invalid credentials"), db)
      else
        (.ok u.id,
          { db with
            users := db.users.map (fun v =>
              if v.id == u.id then { v with last_login := some now } else v) })

/-- The two aggregator mutations the consistency claims quantify over:
`recordObservation` (`POST /api/emotions`) and `removeObservation`
(`DELETE /api/emotions/:id`). -/
inductive AggOp where
  | record (p : EmotionPayload) (now : Timestamp)
  | remove (emotionId : Int)
deriving DecidableEq

/-- State transition of one aggregator call. -/
def applyAggOp (db : DB) : AggOp → DB
  | .record p now => (postApiEmotions db p now).2
  | .remove i => (deleteApiEmotionsId db i).2

/-- State after a whole sequence of aggregator calls. -/
def runAggOps (db : DB) : List AggOp → DB
  | [] => db
  | op :: ops => runAggOps (applyAggOp db op) ops

/-- Primary-key discipline of the `emotions` table: AUTOINCREMENT ids are
pairwise distinct and below the next id to be assigned. -/
def emotionIdsOk (db : DB) : Prop :=
  (db.emotions.map (·.id)).Nodup ∧ ∀ e ∈ db.emotions, e.id < db.nextEmotionId

instance (db : DB) : Decidable (emotionIdsOk db) := by
  unfold emotionIdsOk; exact instDecidableAnd

/-- Aggregator consistency: every session's stored counter equals the number
of its stored emotion rows. -/
def countersConsistent (db : DB) : Prop :=
  ∀ s ∈ db.sessions, s.total_detections = some ((sessionEmotions db s.id).length : Int)

instance (db : DB) : Decidable (countersConsistent db) := by
  unfold countersConsistent; infer_instance

/-- The full set of state-changing operations the embedded service exposes. -/
inductive Op where
  | registerUser (r : RegisterPayload)
  | loginUser (email password : String) (now : Timestamp)
  | createSessionOp (name : String) (now : Timestamp)
  | endSessionOp (sessionId : Int) (b : EndSessionBody)
  | recordEmotion (p : EmotionPayload) (now : Timestamp)
  | removeEmotion (emotionId : Int)
deriving DecidableEq

/-- State transition of one service operation. -/
def applyOp (db : DB) : Op → DB
  | .registerUser r => (postApiAuthRegister db r).2
  | .loginUser e p now => (postApiAuthLogin db e p now).2
  | .createSessionOp n now => (postApiSessions db n now).2
  | .endSessionOp sid b => (putApiSessionsIdEnd db sid b).2
  | .recordEmotion p now => (postApiEmotions db p now).2
  | .removeEmotion i => (deleteApiEmotionsId db i).2

/-- Spec-side reading of an ingestion payload violating the label enum. -/
def violatesLabel (p : EmotionPayload) : Prop := p.emotionType ∉ emotionLabels

instance (p : EmotionPayload) : Decidable (violatesLabel p) := by
  unfold violatesLabel; infer_instance

/-- Spec-side reading of an ingestion payload violating `confidence ∈ [0,1]`. -/
def violatesConfidence (p : EmotionPayload) : Prop :=
  p.confidenceScore < 0 ∨ 1 < p.confidenceScore

instance (p : EmotionPayload) : Decidable (violatesConfidence p) := by
  unfold violatesConfidence; infer_instance

/-- Spec-side reading of a present `ageEstimate` outside `[0,120]`. -/
def violatesAge (p : EmotionPayload) : Prop :=
  ∃ a, p.ageEstimate = some a ∧ (a < 0 ∨ 120 < a)

instance (p : EmotionPayload) : Decidable (violatesAge p) :=
  decidable_of_iff
    (p.ageEstimate.any (fun a => decide (a < 0) || decide (120 < a)) = true)
    (by unfold violatesAge; cases h : p.ageEstimate <;> simp [h])

/-- Spec-side reading of a present `genderEstimate` outside `{male, female}`. -/
def violatesGender (p : EmotionPayload) : Prop :=
  ∃ g, p.genderEstimate = some g ∧ g ≠ "male" ∧ g ≠ "female"

instance (p : EmotionPayload) : Decidable (violatesGender p) :=
  decidable_of_iff
    (p.genderEstimate.any (fun g => ¬ (g == "male" || g == "female")) = true)
    (by unfold violatesGender; cases h : p.genderEstimate <;> simp [h, not_or])

/-- The observations of a session carrying a given label, in store order. -/
def labelEmotions (db : DB) (sessionId : Int) (t : String) : List Emotion :=
  (sessionEmotions db sessionId).filter (fun e => e.emotion_type == t)

/-- A session created through `POST /api/sessions` named `Demo`
(scenario data reused by several concrete checks). -/
def demoDB : DB := (postApiSessions initDB "Demo" 100).2

/-- A `happy` ingestion payload for session 1 with the given confidence. -/
def happyPayload (c : ℚ) : EmotionPayload :=
  { sessionId := 1, emotionType := "happy", confidenceScore := c
    ageEstimate := none, genderEstimate := none
    imageId := none, processingTimeMs := none }

/-- A `sad` ingestion payload for session 1. -/
def sadPayload : EmotionPayload :=
  { sessionId := 1, emotionType := "sad", confidenceScore := mkRat 1 2
    ageEstimate := none, genderEstimate := none
    imageId := none, processingTimeMs := none }

/-- State reached by: create session `Demo`, record one `happy` observation,
then close the session with a client-supplied `totalDetections` of 0 (the
route stores the client value verbatim).  The stored observation survives
while the counter reads 0. -/
def underflowPre : DB :=
  (putApiSessionsIdEnd (postApiEmotions demoDB (happyPayload (mkRat 92 100)) 110).2 1
    { endTime := some 200, duration := none, totalDetections := some 0, accuracy := none }).2

/-- Store holding two observations of session 1 with distinct labels and
equal counts: `happy` (confidence 9/10) then `angry` (confidence 8/10). -/
def tieDB : DB :=
  { users := []
    sessions := [{ id := 1, user_id := none, session_name := some "Demo"
                   start_time := 0, end_time := none, duration_seconds := none
                   total_detections := some 2, accuracy_score := none
                   is_completed := false }]
    emotions := [{ id := 1, session_id := 1, emotion_type := "happy"
                   confidence_score := mkRat 9 10, timestamp := 10, age_estimate := none
                   gender_estimate := none, image_id := none, processing_time_ms := none },
                 { id := 2, session_id := 1, emotion_type := "angry"
                   confidence_score := mkRat 8 10, timestamp := 11, age_estimate := none
                   gender_estimate := none, image_id := none, processing_time_ms := none }]
    emotion_summaries := [], nextUserId := 1, nextSessionId := 2, nextEmotionId := 3 }

/-- An already-registered active user (for the conflict and login checks). -/
def aliceUser : User :=
  { id := 1, username := "alice", email := "alice@example.com"
    password_hash := bcryptHash "secret1", full_name := none
    is_active := true, last_login := none }

/-- Store holding just the user `alice`. -/
def aliceDB : DB := { initDB with users := [aliceUser], nextUserId := 2 }

/-- The aggregator call sequence of the counter-invariant check: record
`happy`, record `sad`, then remove the first observation. -/
def w1Ops : List AggOp :=
  [.record (happyPayload (mkRat 92 100)) 110, .record sadPayload 120, .remove 1]

/-- The session row left by running `w1Ops` on `demoDB`. -/
def w1Final : Session :=
  { id := 1, user_id := none, session_name := some "Demo", start_time := 100
    end_time := none, duration_seconds := none, total_detections := some 1
    accuracy_score := none, is_completed := false }

/-- State after recording `happy` with confidence 0.92 on the fresh `Demo`
session (scenario A, first step). -/
def scenarioADB1 : DB := (postApiEmotions demoDB (happyPayload (mkRat 92 100)) 110).2

/-- State after additionally recording `happy` with confidence 0.80
(scenario A, second step). -/
def scenarioADB2 : DB := (postApiEmotions scenarioADB1 (happyPayload (mkRat 80 100)) 120).2

/-- A registration payload duplicating both `alice`'s email and username. -/
def regDupPayload : RegisterPayload :=
  { username := "alice", email := "alice@example.com", password := "secret99", fullName := none }

/-- Scenario C payload: confidence 1.5, outside `[0,1]`. -/
def overConfPayload : EmotionPayload :=
  { sessionId := 1, emotionType := "happy", confidenceScore := mkRat 3 2
    ageEstimate := none, genderEstimate := none
    imageId := none, processingTimeMs := none }

/-- A close-session body carrying an `endTime` after the `Demo` session's
start, a client-supplied `duration` the trigger will overwrite, and
client-supplied aggregates. -/
def endBodyW : EndSessionBody :=
  { endTime := some 250, duration := some 999, totalDetections := some 7, accuracy := none }

/-- Claim C5: a validated ingestion payload whose `sessionId` matches no
stored session is answered with the 404 `Session not found` error and the
store is left untouched — in particular no observation row is inserted. -/
theorem ingest_missing_session_notFound (db : DB) (p : EmotionPayload) (now : Timestamp)
    (hv : validateEmotionPayload p = none)
    (hs : ∀ s ∈ db.sessions, s.id ≠ p.sessionId) :
    postApiEmotions db p now = (.error (.notFound "Session not found"), db) := by
  have hfind : db.sessions.find? (fun s => s.id == p.sessionId) = none :=
    List.find?_eq_none.mpr (fun s hm => by simpa using hs s hm)
  unfold postApiEmotions
  rw [hv, hfind]

/-- Scenario B evidence for C5: on the one-session `Demo` store, recording a
valid `happy` observation against `sessionId = 9999` is a 404 no-op. -/
theorem ingest_missing_session_notFound_witness :
    validateEmotionPayload
      { sessionId := 9999, emotionType := "happy", confidenceScore := mkRat 1 2
        ageEstimate := none, genderEstimate := none
        imageId := none, processingTimeMs := none } = none ∧
    postApiEmotions demoDB
      { sessionId := 9999, emotionType := "happy", confidenceScore := mkRat 1 2
        ageEstimate := none, genderEstimate := none
        imageId := none, processingTimeMs := none } 130
      = (.error (.notFound "Session not found"), demoDB) :=
  ⟨by decide, ingest_missing_session_notFound demoDB _ 130 (by decide) (by decide)⟩

/-- Claim C8: registration answers the 400 message of the first violated
schema rule (username shape, then email format, then password length), and
once the payload validates it answers 409 for a taken email before even
looking at the username, then 409 for a taken username; both conflict checks
consult only active users, which is every user the service ever stores. -/
theorem register_conflict_order (db : DB) (r : RegisterPayload) :
    (¬ (3 ≤ r.username.length ∧ r.username.length ≤ 30 ∧ r.username.data.all Char.isAlphanum) →
      postApiAuthRegister db r = (.error (.validation usernameMsg), db)) ∧
    ((3 ≤ r.username.length ∧ r.username.length ≤ 30 ∧ r.username.data.all Char.isAlphanum) →
      ¬ emailFormatOk r.email →
      postApiAuthRegister db r = (.error (.validation emailFormatMsg), db)) ∧
    ((3 ≤ r.username.length ∧ r.username.length ≤ 30 ∧ r.username.data.all Char.isAlphanum) →
      emailFormatOk r.email → r.password.length < 6 →
      postApiAuthRegister db r = (.error (.validation passwordMsg), db)) ∧
    (validateRegister r = none → (∃ u ∈ db.users, u.email = r.email ∧ u.is_active) →
      postApiAuthRegister db r = (.error (.conflict "User already exists with this email"), db)) ∧
    (validateRegister r = none → (∀ u ∈ db.users, u.is_active → u.email ≠ r.email) →
      (∃ u ∈ db.users, u.username = r.username ∧ u.is_active) →
      postApiAuthRegister db r = (.error (.conflict "Username already taken"), db)) := by
  refine ⟨?_, ?_, ?_, ?_, ?_⟩
  · intro h
    unfold postApiAuthRegister validateRegister
    rw [if_pos h]
  · intro hu he
    unfold postApiAuthRegister validateRegister
    rw [if_neg (not_not_intro hu), if_pos he]
  · intro hu he hp
    unfold postApiAuthRegister validateRegister
    rw [if_neg (not_not_intro hu), if_neg (not_not_intro he), if_pos hp]
  · intro hv hex
    have hsome : (findUserByEmail db r.email).isSome = true := by
      unfold findUserByEmail
      rw [List.find?_isSome]
      obtain ⟨u, hu, hue, hua⟩ := hex
      exact ⟨u, hu, by simp [hue, hua]⟩
    unfold postApiAuthRegister
    rw [hv, if_pos hsome]
  · intro hv hmail huser
    have hnone : (findUserByEmail db r.email).isSome = false := by
      unfold findUserByEmail
      rw [List.find?_eq_none.mpr (fun u hu => ?_)]
      · rfl
      · simp only [Bool.and_eq_true, beq_iff_eq, not_and]
        intro hue hua
        exact hmail u hu hua hue
    have hsome : (findUserByUsername db r.username).isSome = true := by
      unfold findUserByUsername
      rw [List.find?_isSome]
      obtain ⟨u, hu, hue, hua⟩ := huser
      exact ⟨u, hu, by simp [hue, hua]⟩
    unfold postApiAuthRegister
    rw [hv, if_neg (by simp [hnone]), if_pos hsome]

/-- Scenario D evidence for C8: re-registering `alice`'s email (and
username) is rejected with the email conflict, showing the email check runs
first. -/
theorem register_conflict_order_witness :
    validateRegister regDupPayload = none ∧
    postApiAuthRegister aliceDB regDupPayload
      = (.error (.conflict "User already exists with this email"), aliceDB) :=
  ⟨by decide,
    (register_conflict_order aliceDB regDupPayload).2.2.2.1 (by decide) (by decide)⟩

/-- Claim C9: a login against an unknown email and a login against a known
email with a rejected password produce the same 401 response — the error
carries one shared message, so the two failure causes are indistinguishable
to the caller. -/
theorem login_uniform_unauthorized (db : DB) (e1 p1 e2 p2 : String) (now : Timestamp)
    (u : User)
    (h1e : emailFormatOk e1 = true) (h1p : p1 ≠ "")
    (h1 : ∀ x ∈ db.users, x.is_active → x.email ≠ e1)
    (h2e : emailFormatOk e2 = true) (h2p : p2 ≠ "")
    (h2 : findUserByEmail db e2 = some u)
    (h2w : bcryptCompare p2 u.password_hash = false) :
    ∃ m, postApiAuthLogin db e1 p1 now = (.error (.unauthorized m), db) ∧
         postApiAuthLogin db e2 p2 now = (.error (.unauthorized m), db) := by
  have h1b : (p1 == "") = false := beq_eq_false_iff_ne.mpr h1p
  have h2b : (p2 == "") = false := beq_eq_false_iff_ne.mpr h2p
  have hfind : findUserByEmail db e1 = none := by
    unfold findUserByEmail
    refine List.find?_eq_none.mpr (fun x hx => ?_)
    simp only [Bool.and_eq_true, beq_iff_eq, not_and]
    intro hxe hxa
    exact absurd hxe (h1 x hx hxa)
  refine ⟨"Invalid credentials", ?_, ?_⟩
  · unfold postApiAuthLogin
    rw [h1e, h1b, hfind]
    exact rfl
  · unfold postApiAuthLogin
    rw [h2e, h2b, h2]
    dsimp only
    rw [h2w]
    exact rfl

/-- Scenario D evidence for C9: on the `alice` store, logging in as the
unknown `bob@example.com` and as `alice@example.com` with a wrong password
yield the same 401 message. -/
theorem login_uniform_unauthorized_witness :
    ∃ m, postApiAuthLogin aliceDB "bob@example.com" "pw1234" 50
           = (.error (.unauthorized m), aliceDB) ∧
         postApiAuthLogin aliceDB "alice@example.com" "wrongpass" 50
           = (.error (.unauthorized m), aliceDB) :=
  login_uniform_unauthorized aliceDB "bob@example.com" "pw1234" "alice@example.com"
    "wrongpass" 50 aliceUser (by decide) (by decide) (by decide) (by decide) (by decide)
    (by decide) (by decide)

/-- Lift of a failed payload validation to the ingestion route's answer. -/
theorem postApiEmotions_of_validation (db : DB) (p : EmotionPayload) (now : Timestamp)
    (m : String) (h : validateEmotionPayload p = some m) :
    postApiEmotions db p now = (.error (.validation m), db) := by
  unfold postApiEmotions
  rw [h]

/-- A label outside the enum is the first reported violation. -/
theorem validate_label_violation (p : EmotionPayload) (h : violatesLabel p) :
    validateEmotionPayload p = some emotionTypeMsg := by
  have hL : p.emotionType ∉ emotionLabels := h
  unfold validateEmotionPayload
  rw [if_pos hL]

/-- With a valid label, an out-of-range confidence is reported next. -/
theorem validate_conf_violation (p : EmotionPayload)
    (hl : ¬ violatesLabel p) (hc : violatesConfidence p) :
    validateEmotionPayload p
      = some (if p.confidenceScore < 0 then confidenceMinMsg else confidenceMaxMsg) := by
  have hL : ¬ p.emotionType ∉ emotionLabels := hl
  unfold validateEmotionPayload
  rw [if_neg hL]
  by_cases hlt : p.confidenceScore < 0
  · rw [if_pos hlt, if_pos hlt]
  · have hgt : 1 < p.confidenceScore := hc.resolve_left hlt
    rw [if_neg hlt, if_pos hgt, if_neg hlt]

/-- With a valid label and confidence, an out-of-range age is reported next. -/
theorem validate_age_violation (p : EmotionPayload)
    (hl : ¬ violatesLabel p) (hc : ¬ violatesConfidence p) (ha : violatesAge p) :
    validateEmotionPayload p
      = some (if p.ageEstimate.any (fun a => decide (a < 0)) then ageMinMsg else ageMaxMsg) := by
  obtain ⟨a, hsome, hout⟩ := ha
  have h0 : ¬ p.confidenceScore < 0 := fun hx => hc (Or.inl hx)
  have h1 : ¬ 1 < p.confidenceScore := fun hx => hc (Or.inr hx)
  have hL : ¬ p.emotionType ∉ emotionLabels := hl
  unfold validateEmotionPayload
  rw [if_neg hL, if_neg h0, if_neg h1, hsome]
  simp only [Option.any_some]
  rcases hout with hlt | hgt
  · simp [hlt]
  · have hnl : ¬ a < 0 := by omega
    simp [hnl, hgt]

/-- With valid label, confidence and age, a bad gender is reported next. -/
theorem validate_gender_violation (p : EmotionPayload)
    (hl : ¬ violatesLabel p) (hc : ¬ violatesConfidence p) (ha : ¬ violatesAge p)
    (hg : violatesGender p) :
    validateEmotionPayload p = some genderMsg := by
  obtain ⟨g, hsome, hm, hf⟩ := hg
  have h0 : ¬ p.confidenceScore < 0 := fun hx => hc (Or.inl hx)
  have h1 : ¬ 1 < p.confidenceScore := fun hx => hc (Or.inr hx)
  have ha1 : p.ageEstimate.any (fun a => decide (a < 0)) = false := by
    cases hA : p.ageEstimate with
    | none => rfl
    | some a =>
      simp only [Option.any_some, decide_eq_false_iff_not]
      intro hlt
      exact ha ⟨a, hA, Or.inl hlt⟩
  have ha2 : p.ageEstimate.any (fun a => decide (120 < a)) = false := by
    cases hA : p.ageEstimate with
    | none => rfl
    | some a =>
      simp only [Option.any_some, decide_eq_false_iff_not]
      intro hgt
      exact ha ⟨a, hA, Or.inr hgt⟩
  unfold validateEmotionPayload
  have hL : ¬ p.emotionType ∉ emotionLabels := hl
  rw [if_neg hL, if_neg h0, if_neg h1,
    if_neg (by simp [ha1]), if_neg (by simp [ha2]),
    if_pos (by rw [hsome]; simp [hm, hf])]

/-- Claim C6: an ingestion payload violating the label enum, the confidence
range, the age range or the gender enum is answered with a 400 validation
error and nothing is stored (the state component is returned unchanged, so
no clamping can occur); the reported message belongs to the first violated
rule in schema order (label, then confidence, then age, then gender). -/
theorem ingest_validation_first_error (db : DB) (p : EmotionPayload) (now : Timestamp)
    (h : violatesLabel p ∨ violatesConfidence p ∨ violatesAge p ∨ violatesGender p) :
    (∃ m, postApiEmotions db p now = (.error (.validation m), db)) ∧
    (violatesLabel p →
      postApiEmotions db p now = (.error (.validation emotionTypeMsg), db)) ∧
    (¬ violatesLabel p → violatesConfidence p →
      postApiEmotions db p now
        = (.error (.validation
            (if p.confidenceScore < 0 then confidenceMinMsg else confidenceMaxMsg)), db)) ∧
    (¬ violatesLabel p → ¬ violatesConfidence p → violatesAge p →
      postApiEmotions db p now
        = (.error (.validation
            (if p.ageEstimate.any (fun a => decide (a < 0)) then ageMinMsg else ageMaxMsg)), db)) ∧
    (¬ violatesLabel p → ¬ violatesConfidence p → ¬ violatesAge p → violatesGender p →
      postApiEmotions db p now = (.error (.validation genderMsg), db)) := by
  refine ⟨?_,
    fun hl => postApiEmotions_of_validation db p now _ (validate_label_violation p hl),
    fun hl hc => postApiEmotions_of_validation db p now _ (validate_conf_violation p hl hc),
    fun hl hc ha => postApiEmotions_of_validation db p now _ (validate_age_violation p hl hc ha),
    fun hl hc ha hg =>
      postApiEmotions_of_validation db p now _ (validate_gender_violation p hl hc ha hg)⟩
  by_cases hl : violatesLabel p
  · exact ⟨emotionTypeMsg, postApiEmotions_of_validation db p now _ (validate_label_violation p hl)⟩
  by_cases hc : violatesConfidence p
  · exact ⟨_, postApiEmotions_of_validation db p now _ (validate_conf_violation p hl hc)⟩
  by_cases ha : violatesAge p
  · exact ⟨_, postApiEmotions_of_validation db p now _ (validate_age_violation p hl hc ha)⟩
  have hg : violatesGender p := by
    rcases h with h | h | h | h
    · exact absurd h hl
    · exact absurd h hc
    · exact absurd h ha
    · exact h
  exact ⟨genderMsg, postApiEmotions_of_validation db p now _ (validate_gender_violation p hl hc ha hg)⟩

/-- Scenario C evidence for C6: recording `confidence = 1.5` on the `Demo`
store is rejected with the confidence-maximum message and the store is
untouched. -/
theorem ingest_validation_first_error_witness :
    (violatesLabel overConfPayload ∨ violatesConfidence overConfPayload ∨
      violatesAge overConfPayload ∨ violatesGender overConfPayload) ∧
    postApiEmotions demoDB overConfPayload 110
      = (.error (.validation confidenceMaxMsg), demoDB) :=
  ⟨by decide,
    (ingest_validation_first_error demoDB overConfPayload 110 (by decide)).2.2.1
      (by decide) (by decide)⟩

/-- Claim C2 (code bug): a state in which session 1 still holds one stored
observation while its counter reads 0 is reachable through the service's own
routes (close the session with a client-supplied `totalDetections` of 0);
deleting that observation then drives `total_detections` to `-1` — the
decrement is applied with no floor at zero and no error. -/
theorem remove_underflow_goes_negative :
    underflowPre.sessions.map (fun s => s.total_detections) = [some 0] ∧
    underflowPre.emotions.map (fun e => e.id) = [1] ∧
    (deleteApiEmotionsId underflowPre 1).2.sessions.map (fun s => s.total_detections)
      = [some (-1)] := by
  decide

/-- Claim C7 counterexample: ending the nonexistent session 9999 succeeds
with the store unchanged instead of failing with `NotFound`; ending the
`Demo` session (started at 100) with `endTime = 50` also succeeds instead of
failing with `ValidationError`, stores the negative derived duration `-50`,
and leaves the completion flag unset instead of marking the session
completed. -/
theorem end_session_cex :
    (putApiSessionsIdEnd initDB 9999
        { endTime := some 10, duration := none, totalDetections := none, accuracy := none }).1
      = .ok () ∧
    (putApiSessionsIdEnd initDB 9999
        { endTime := some 10, duration := none, totalDetections := none, accuracy := none }).2
      = initDB ∧
    (putApiSessionsIdEnd demoDB 1
        { endTime := some 50, duration := none, totalDetections := none, accuracy := none }).1
      = .ok () ∧
    ((putApiSessionsIdEnd demoDB 1
        { endTime := some 50, duration := none, totalDetections := none, accuracy := none }).2.sessions.map
      (fun s => (s.duration_seconds, s.is_completed))) = [(some (-50), false)] :=
  ⟨rfl, by decide, rfl, by decide⟩

/-- Claim C7 amended: `PUT /api/sessions/:id/end` always reports success —
it never answers `NotFound` (a missing id simply updates no row) and never
answers `ValidationError` (an `endTime` before `start_time` is accepted).
For an existing open session given an `endTime`, the route stores `end_time`
and the client-supplied `totalDetections`/`accuracy`, the schema trigger
overwrites `duration_seconds` with `endTime - start_time` in seconds
(possibly negative), and the completion flag is left as it was. -/
theorem end_session_amended (db : DB) (sid : Int) (b : EndSessionBody) :
    (putApiSessionsIdEnd db sid b).1 = .ok () ∧
    (∀ s ∈ db.sessions, s.id = sid → s.end_time = none → ∀ te, b.endTime = some te →
      { s with end_time := some te
               duration_seconds := some (te - s.start_time)
               total_detections := b.totalDetections
               accuracy_score := b.accuracy } ∈ (putApiSessionsIdEnd db sid b).2.sessions) := by
  refine ⟨rfl, ?_⟩
  intro s hs hid hopen te hte
  unfold putApiSessionsIdEnd
  refine List.mem_map.mpr ⟨s, hs, ?_⟩
  rw [if_pos (by simp [hid])]
  unfold applyEndUpdate
  rw [if_pos ⟨hopen, by simp [hte]⟩, hte]
  rfl

/-- Evidence for the amended C7: closing the open `Demo` session with
`endTime = 250` yields the trigger-derived duration 150 (not the
client-supplied 999), the client's `totalDetections = 7`, and an unchanged
completion flag. -/
theorem end_session_amended_witness :
    (putApiSessionsIdEnd demoDB 1 endBodyW).1 = .ok () ∧
    ({ id := 1, user_id := none, session_name := some "Demo", start_time := 100
       end_time := some 250, duration_seconds := some 150, total_detections := some 7
       accuracy_score := none, is_completed := false } : Session)
      ∈ (putApiSessionsIdEnd demoDB 1 endBodyW).2.sessions :=
  ⟨(end_session_amended demoDB 1 endBodyW).1,
    (end_session_amended demoDB 1 endBodyW).2
      { id := 1, user_id := none, session_name := some "Demo", start_time := 100
        end_time := none, duration_seconds := none, total_detections := some 0
        accuracy_score := none, is_completed := false }
      (by decide) rfl rfl 250 rfl⟩

/-- Claim C3 counterexample: on a session holding one `happy` and one
`angry` observation (equal counts), the arrangement listing `happy` before
`angry` satisfies everything the summary query requires — it is a
permutation of the group rows sorted by count descending — yet it is not in
alphabetical label order on the tie, so the query does not guarantee the
claimed deterministic tie-break. -/
theorem summary_tiebreak_cex :
    getEmotionSummaryResult tieDB 1 (summaryGroups tieDB 1) ∧
    ¬ specTieBreakOrder (summaryGroups tieDB 1) :=
  ⟨⟨List.Perm.refl _, by decide⟩, by decide⟩

/-- Claim C3 amended: every result the summary query can return is sorted by
count descending (the only ordering the SQL imposes — the relative order of
equal counts is left unspecified), and each of its rows aggregates the
stored observations of its label: a positive count equal to the number of
observations with that label, their average confidence, and their earliest
and latest timestamps. -/
theorem summary_order_amended (db : DB) (sid : Int) (out : List SummaryRow)
    (h : getEmotionSummaryResult db sid out) :
    countSortedDesc out ∧
    ∀ r ∈ out, 0 < r.count ∧
      r.count = (labelEmotions db sid r.emotion_type).length ∧
      r.avg_confidence
        = ((labelEmotions db sid r.emotion_type).map (·.confidence_score)).sum / (r.count : ℚ) ∧
      r.first_detection = listMinD ((labelEmotions db sid r.emotion_type).map (·.timestamp)) ∧
      r.last_detection = listMaxD ((labelEmotions db sid r.emotion_type).map (·.timestamp)) := by
  obtain ⟨hperm, hsort⟩ := h
  refine ⟨hsort, ?_⟩
  intro r hr
  have hr' : r ∈ summaryGroups db sid := hperm.mem_iff.mp hr
  obtain ⟨t, ht, rfl⟩ := List.mem_map.mp hr'
  have hmem : t ∈ (sessionEmotions db sid).map (·.emotion_type) := List.mem_dedup.mp ht
  obtain ⟨e, he, hte⟩ := List.mem_map.mp hmem
  refine ⟨?_, rfl, rfl, rfl, rfl⟩
  have hef : e ∈ (sessionEmotions db sid).filter (fun x => x.emotion_type == t) :=
    List.mem_filter.mpr ⟨he, by simp [hte]⟩
  exact List.length_pos_of_mem hef

/-- Evidence for the amended C3 on the concrete tied store: its canonical
arrangement is admissible and sorted by count descending. -/
theorem summary_order_amended_witness :
    getEmotionSummaryResult tieDB 1 (summaryGroups tieDB 1) ∧
    countSortedDesc (summaryGroups tieDB 1) :=
  ⟨⟨List.Perm.refl _, by decide⟩,
    (summary_order_amended tieDB 1 (summaryGroups tieDB 1) ⟨List.Perm.refl _, by decide⟩).1⟩

/-- The ingestion route's answer when the session lookup comes back empty. -/
theorem postApiEmotions_find_none (db : DB) (p : EmotionPayload) (now : Timestamp)
    (hv : validateEmotionPayload p = none)
    (hs : db.sessions.find? (fun s => s.id == p.sessionId) = none) :
    postApiEmotions db p now = (.error (.notFound "Session not found"), db) := by
  unfold postApiEmotions
  rw [hv, hs]

/-- The ingestion route's answer on the success path: the observation row is
appended and the matching session counters are bumped. -/
theorem postApiEmotions_found (db : DB) (p : EmotionPayload) (now : Timestamp)
    (s₀ : Session) (hv : validateEmotionPayload p = none)
    (hs : db.sessions.find? (fun s => s.id == p.sessionId) = some s₀) :
    postApiEmotions db p now =
      (.ok db.nextEmotionId,
        { db with
          emotions := db.emotions ++
            [{ id := db.nextEmotionId, session_id := p.sessionId
               emotion_type := p.emotionType, confidence_score := p.confidenceScore
               timestamp := now, age_estimate := p.ageEstimate
               gender_estimate := p.genderEstimate, image_id := p.imageId
               processing_time_ms := p.processingTimeMs }]
          sessions := db.sessions.map (fun s =>
            if s.id == p.sessionId then
              { s with total_detections := s.total_detections.map (· + 1) }
            else s)
          nextEmotionId := db.nextEmotionId + 1 }) := by
  unfold postApiEmotions
  rw [hv, hs]

/-- The deletion route's answer when the observation lookup comes back
empty. -/
theorem deleteApiEmotionsId_none (db : DB) (i : Int)
    (hf : db.emotions.find? (fun e => e.id == i) = none) :
    deleteApiEmotionsId db i = (.error (.notFound "Emotion not found"), db) := by
  unfold deleteApiEmotionsId
  rw [hf]

/-- The deletion route's answer when the observation is found. -/
theorem deleteApiEmotionsId_found (db : DB) (i : Int) (e : Emotion)
    (hf : db.emotions.find? (fun x => x.id == i) = some e) :
    deleteApiEmotionsId db i =
      (.ok (),
        { db with
          emotions := db.emotions.filter (fun r => ! (r.id == i))
          sessions := db.sessions.map (fun s =>
            if s.id == e.session_id then
              { s with total_detections := s.total_detections.map (· - 1) }
            else s) }) := by
  unfold deleteApiEmotionsId
  rw [hf]

/-- Removing the row the lookup found from a table with pairwise-distinct
ids lowers each session's per-session row count by exactly the found row's
contribution. -/
theorem length_filter_after_remove (l : List Emotion) (i : Int) (e : Emotion)
    (hnd : (l.map (·.id)).Nodup) (hf : l.find? (fun x => x.id == i) = some e)
    (sid : Int) :
    (l.filter (fun x => x.session_id == sid)).length
      = ((l.filter (fun r => ! (r.id == i))).filter (fun x => x.session_id == sid)).length
        + (if e.session_id == sid then 1 else 0) := by
  induction l with
  | nil => simp at hf
  | cons a t ih =>
    rw [List.map_cons, List.nodup_cons] at hnd
    obtain ⟨hna, hnt⟩ := hnd
    by_cases ha : (a.id == i) = true
    · rw [show (a :: t).find? (fun x => x.id == i) = some a from
          List.find?_cons_of_pos _ ha] at hf
      obtain rfl : a = e := by injection hf
      have hall : ∀ x ∈ t, (! (x.id == i)) = true := by
        intro x hx
        have hxa : x.id ≠ a.id := by
          intro hxe
          apply hna
          rw [← hxe]
          exact List.mem_map_of_mem (·.id) hx
        have hxi : x.id ≠ i := by
          intro hxi
          exact hxa (hxi.trans (beq_iff_eq.mp ha).symm)
        simp [beq_eq_false_iff_ne.mpr hxi]
      have hdrop : (a :: t).filter (fun r => ! (r.id == i)) = t := by
        rw [List.filter_cons, if_neg (by simp [ha]), List.filter_eq_self.mpr hall]
      rw [hdrop, List.filter_cons]
      by_cases hsid : (a.session_id == sid) = true
      · rw [if_pos hsid, if_pos hsid, List.length_cons]
      · rw [if_neg hsid, if_neg hsid]
        omega
    · rw [show (a :: t).find? (fun x => x.id == i) = t.find? (fun x => x.id == i) from
          List.find?_cons_of_neg _ (by simp [ha])] at hf
      have hkeep : (a :: t).filter (fun r => ! (r.id == i))
          = a :: t.filter (fun r => ! (r.id == i)) := by
        rw [List.filter_cons, if_pos (by simp [ha])]
      rw [hkeep, List.filter_cons, List.filter_cons]
      by_cases hsid : (a.session_id == sid) = true
      · rw [if_pos hsid, if_pos hsid, List.length_cons, List.length_cons, ih hnt hf]
        omega
      · rw [if_neg hsid, if_neg hsid, ih hnt hf]

/-- Recording an observation keeps every session counter equal to its stored
row count: the matching sessions gain the new row and the bump, the others
are untouched. -/
theorem countersConsistent_record (db : DB) (p : EmotionPayload) (now : Timestamp)
    (h2 : countersConsistent db) :
    countersConsistent
      { db with
        emotions := db.emotions ++
          [(⟨db.nextEmotionId, p.sessionId, p.emotionType, p.confidenceScore, now,
            p.ageEstimate, p.genderEstimate, p.imageId, p.processingTimeMs⟩ : Emotion)]
        sessions := db.sessions.map (fun s =>
          if s.id == p.sessionId then
            { s with total_detections := s.total_detections.map (· + 1) }
          else s)
        nextEmotionId := db.nextEmotionId + 1 } := by
  intro s' hs'
  obtain ⟨s, hsmem, rfl⟩ := List.mem_map.mp hs'
  have hc := h2 s hsmem
  unfold sessionEmotions at hc
  by_cases hid : (s.id == p.sessionId) = true
  · rw [if_pos hid]
    show s.total_detections.map (· + 1)
        = some ((((db.emotions ++
            [(⟨db.nextEmotionId, p.sessionId, p.emotionType, p.confidenceScore, now,
              p.ageEstimate, p.genderEstimate, p.imageId, p.processingTimeMs⟩ : Emotion)]).filter
            (fun e => e.session_id == s.id)).length : Int))
    rw [hc, List.filter_append]
    have hps : (p.sessionId == s.id) = true := beq_iff_eq.mpr (beq_iff_eq.mp hid).symm
    simp only [List.filter_cons, List.filter_nil, hps, if_true,
      List.length_append, List.length_cons, List.length_nil,
      Option.map_some', Option.some.injEq]
    push_cast
    ring
  · rw [if_neg hid]
    show s.total_detections
        = some ((((db.emotions ++
            [(⟨db.nextEmotionId, p.sessionId, p.emotionType, p.confidenceScore, now,
              p.ageEstimate, p.genderEstimate, p.imageId, p.processingTimeMs⟩ : Emotion)]).filter
            (fun e => e.session_id == s.id)).length : Int))
    rw [hc, List.filter_append]
    have hps : (p.sessionId == s.id) = false :=
      beq_eq_false_iff_ne.mpr (fun hx => hid (beq_iff_eq.mpr hx.symm))
    simp only [List.filter_cons, List.filter_nil, hps, Bool.false_eq_true, if_false,
      List.append_nil]

/-- Removing an observation keeps every session counter equal to its stored
row count: the owning session loses exactly the removed row and the
decrement, the others are untouched. -/
theorem countersConsistent_remove (db : DB) (i : Int) (e : Emotion)
    (hnd : (db.emotions.map (·.id)).Nodup)
    (hf : db.emotions.find? (fun x => x.id == i) = some e)
    (h2 : countersConsistent db) :
    countersConsistent
      { db with
        emotions := db.emotions.filter (fun r => ! (r.id == i))
        sessions := db.sessions.map (fun s =>
          if s.id == e.session_id then
            { s with total_detections := s.total_detections.map (· - 1) }
          else s) } := by
  intro s' hs'
  obtain ⟨s, hsmem, rfl⟩ := List.mem_map.mp hs'
  have hc := h2 s hsmem
  unfold sessionEmotions at hc
  have hkey := length_filter_after_remove db.emotions i e hnd hf s.id
  by_cases hid : (s.id == e.session_id) = true
  · rw [if_pos hid]
    show s.total_detections.map (· - 1)
        = some ((((db.emotions.filter (fun r => ! (r.id == i))).filter
            (fun x => x.session_id == s.id)).length : Int))
    rw [hc]
    have hes : (e.session_id == s.id) = true := beq_iff_eq.mpr (beq_iff_eq.mp hid).symm
    simp only [hes, eq_self_iff_true, if_true] at hkey
    simp only [Option.map_some', Option.some.injEq]
    omega
  · rw [if_neg hid]
    show s.total_detections
        = some ((((db.emotions.filter (fun r => ! (r.id == i))).filter
            (fun x => x.session_id == s.id)).length : Int))
    rw [hc]
    have hes : (e.session_id == s.id) = false :=
      beq_eq_false_iff_ne.mpr (fun hx => hid (beq_iff_eq.mpr hx.symm))
    simp only [hes, Bool.false_eq_true, if_false] at hkey
    simp only [Option.some.injEq]
    omega

/-- One aggregator call (`recordObservation` or `removeObservation`)
preserves the primary-key discipline and keeps every session's counter equal
to its stored row count. -/
theorem aggStep_inv (db : DB) (op : AggOp)
    (h1 : emotionIdsOk db) (h2 : countersConsistent db) :
    emotionIdsOk (applyAggOp db op) ∧ countersConsistent (applyAggOp db op) := by
  obtain ⟨hnd, hlt⟩ := h1
  cases op with
  | record p now =>
    show emotionIdsOk (postApiEmotions db p now).2 ∧ countersConsistent (postApiEmotions db p now).2
    rcases hv : validateEmotionPayload p with _ | msg
    · rcases hs : db.sessions.find? (fun s => s.id == p.sessionId) with _ | s₀
      · rw [postApiEmotions_find_none db p now hv hs]
        exact ⟨⟨hnd, hlt⟩, h2⟩
      · rw [postApiEmotions_found db p now s₀ hv hs]
        dsimp only
        refine ⟨⟨?_, ?_⟩, countersConsistent_record db p now h2⟩
        · rw [List.map_append]
          refine hnd.append (List.nodup_singleton _) ?_
          intro x hx hx'
          simp only [List.map_cons, List.map_nil, List.mem_singleton] at hx'
          obtain ⟨ex, hex, rfl⟩ := List.mem_map.mp hx
          exact absurd hx' (ne_of_lt (hlt ex hex))
        · intro ex hex
          rcases List.mem_append.mp hex with hex | hex
          · exact lt_trans (hlt ex hex) (lt_add_one _)
          · simp only [List.mem_singleton] at hex
            subst hex
            exact lt_add_one _
    · rw [postApiEmotions_of_validation db p now msg hv]
      exact ⟨⟨hnd, hlt⟩, h2⟩
  | remove i =>
    show emotionIdsOk (deleteApiEmotionsId db i).2 ∧ countersConsistent (deleteApiEmotionsId db i).2
    rcases hf : db.emotions.find? (fun e => e.id == i) with _ | e
    · rw [deleteApiEmotionsId_none db i hf]
      exact ⟨⟨hnd, hlt⟩, h2⟩
    · rw [deleteApiEmotionsId_found db i e hf]
      dsimp only
      have hsub : (db.emotions.filter (fun r => ! (r.id == i))).Sublist db.emotions :=
        List.filter_sublist _
      refine ⟨⟨(hsub.map (·.id)).nodup hnd, ?_⟩,
        countersConsistent_remove db i e hnd hf h2⟩
      intro ex hex
      exact hlt ex (hsub.mem hex)

/-- A whole sequence of aggregator calls preserves the invariant. -/
theorem aggOps_inv (ops : List AggOp) (db : DB)
    (h1 : emotionIdsOk db) (h2 : countersConsistent db) :
    emotionIdsOk (runAggOps db ops) ∧ countersConsistent (runAggOps db ops) := by
  induction ops generalizing db with
  | nil => exact ⟨h1, h2⟩
  | cons op ops ih =>
    obtain ⟨h1', h2'⟩ := aggStep_inv db op h1 h2
    exact ih _ h1' h2'

/-- The summary counts of a session add up to its number of stored rows:
every stored row lands in exactly one `GROUP BY emotion_type` group. -/
theorem sum_summary_counts (db : DB) (sid : Int) :
    ((summaryGroups db sid).map (fun r => r.count)).sum
      = (sessionEmotions db sid).length := by
  unfold summaryGroups
  rw [List.map_map]
  have hmap : ((sessionEmotions db sid).map (·.emotion_type)).dedup.map
      ((fun r => r.count) ∘ (fun t => summaryRowFor (sessionEmotions db sid) t))
      = ((sessionEmotions db sid).map (·.emotion_type)).dedup.map
          (fun t => ((sessionEmotions db sid).map (·.emotion_type)).count t) := by
    refine List.map_congr_left (fun t ht => ?_)
    show ((sessionEmotions db sid).filter (fun e => e.emotion_type == t)).length = _
    rw [List.count, List.countP_map, ← List.countP_eq_length_filter]
    rfl
  rw [hmap, List.sum_map_count_dedup_eq_length, List.length_map]

/-- Claim C1: starting from any store in which ids are well-formed and every
session's counter matches its stored rows (as is the case for a fresh
store), after any sequence of `recordObservation`/`removeObservation` calls
the per-label summary counts of every session add up to that session's
`total_detections` counter. -/
theorem summary_counts_match_total (ops : List AggOp) (db : DB)
    (h1 : emotionIdsOk db) (h2 : countersConsistent db) :
    ∀ s ∈ (runAggOps db ops).sessions,
      some (((((summaryGroups (runAggOps db ops) s.id).map (fun r => r.count)).sum : Nat) : Int))
        = s.total_detections := by
  obtain ⟨-, hC⟩ := aggOps_inv ops db h1 h2
  intro s hs
  rw [hC s hs, sum_summary_counts]

/-- Evidence for C1: on the fresh `Demo` store, recording `happy` and `sad`
then deleting the `happy` row leaves a session whose counter 1 equals the
sum of its summary counts. -/
theorem summary_counts_match_total_witness :
    emotionIdsOk demoDB ∧ countersConsistent demoDB ∧
    some (((((summaryGroups (runAggOps demoDB w1Ops) w1Final.id).map (fun r => r.count)).sum : Nat) : Int))
      = w1Final.total_detections :=
  ⟨by decide, by decide,
    summary_counts_match_total w1Ops demoDB (by decide) (by decide) w1Final (by decide)⟩

/-- `find?` with an equality test returns the sought element as soon as it
is a member. -/
theorem find?_beq_of_mem {α : Type} [BEq α] [LawfulBEq α] (l : List α) (t : α)
    (h : t ∈ l) : l.find? (fun x => x == t) = some t := by
  induction l with
  | nil => simp at h
  | cons a as ih =>
    by_cases ha : (a == t) = true
    · rw [show (a :: as).find? (fun x => x == t) = some a from List.find?_cons_of_pos _ ha]
      rw [eq_of_beq ha]
    · rw [show (a :: as).find? (fun x => x == t) = as.find? (fun x => x == t) from
        List.find?_cons_of_neg _ (by simp [ha])]
      rcases List.mem_cons.mp h with rfl | hmem
      · exact absurd (by simp) ha
      · exact ih hmem

/-- Looking a label up in the group rows returns exactly that label's
aggregate row, as soon as the label occurs among the observations. -/
theorem rowFor_find (le : List Emotion) (t : String)
    (h : t ∈ le.map (·.emotion_type)) :
    (((le.map (·.emotion_type)).dedup).map (fun t' => summaryRowFor le t')).find?
        (fun r => r.emotion_type == t) = some (summaryRowFor le t) := by
  rw [List.find?_map]
  have hcomp : ((fun r : SummaryRow => r.emotion_type == t) ∘ (fun t' => summaryRowFor le t'))
      = fun t' => t' == t := rfl
  rw [hcomp, find?_beq_of_mem _ t (List.mem_dedup.mpr h)]
  rfl

/-- Unfolding equation for `summaryGroups` (used to rewrite at a concrete
store). -/
theorem summaryGroups_eq (db : DB) (sid : Int) :
    summaryGroups db sid
      = ((db.emotions.filter (fun e => e.session_id == sid)).map (·.emotion_type)).dedup.map
          (fun t => summaryRowFor (db.emotions.filter (fun e => e.session_id == sid)) t) := rfl

/-- Unfolding equation for `labelEmotions`. -/
theorem labelEmotions_eq (db : DB) (sid : Int) (t : String) :
    labelEmotions db sid t
      = (db.emotions.filter (fun e => e.session_id == sid)).filter
          (fun e => e.emotion_type == t) := rfl

/-- Claim C4: recording a validated observation on an existing session and
then summarizing immediately reflects it — the summary row found for the
observation's label has its count incremented by one relative to the
previous store, and its count and average confidence are exactly the count
and arithmetic mean of all confidences now stored for that label. -/
theorem record_roundtrip_summary (db : DB) (p : EmotionPayload) (now : Timestamp)
    (hv : validateEmotionPayload p = none)
    (hs : ∃ s ∈ db.sessions, s.id = p.sessionId) :
    ∃ r, (summaryGroups (postApiEmotions db p now).2 p.sessionId).find?
        (fun x => x.emotion_type == p.emotionType) = some r ∧
      r.count = (labelEmotions db p.sessionId p.emotionType).length + 1 ∧
      r.count = (labelEmotions (postApiEmotions db p now).2 p.sessionId p.emotionType).length ∧
      r.avg_confidence
        = ((labelEmotions (postApiEmotions db p now).2 p.sessionId p.emotionType).map
            (·.confidence_score)).sum / (r.count : ℚ) := by
  obtain ⟨s₁, hmem, hid⟩ := hs
  obtain ⟨s₀, hs₀⟩ : ∃ s₀, db.sessions.find? (fun s => s.id == p.sessionId) = some s₀ :=
    Option.isSome_iff_exists.mp (List.find?_isSome.mpr ⟨s₁, hmem, by simp [hid]⟩)
  rw [postApiEmotions_found db p now s₀ hv hs₀]
  dsimp only
  rw [summaryGroups_eq, labelEmotions_eq, labelEmotions_eq]
  dsimp only
  have happ : (db.emotions ++
      [({ id := db.nextEmotionId, session_id := p.sessionId
          emotion_type := p.emotionType, confidence_score := p.confidenceScore
          timestamp := now, age_estimate := p.ageEstimate
          gender_estimate := p.genderEstimate, image_id := p.imageId
          processing_time_ms := p.processingTimeMs } : Emotion)]).filter
        (fun e => e.session_id == p.sessionId)
      = db.emotions.filter (fun e => e.session_id == p.sessionId) ++
        [({ id := db.nextEmotionId, session_id := p.sessionId
            emotion_type := p.emotionType, confidence_score := p.confidenceScore
            timestamp := now, age_estimate := p.ageEstimate
            gender_estimate := p.genderEstimate, image_id := p.imageId
            processing_time_ms := p.processingTimeMs } : Emotion)] := by
    rw [List.filter_append]
    simp
  rw [happ]
  have hmm : p.emotionType ∈
      ((db.emotions.filter (fun e => e.session_id == p.sessionId)) ++
        [({ id := db.nextEmotionId, session_id := p.sessionId
            emotion_type := p.emotionType, confidence_score := p.confidenceScore
            timestamp := now, age_estimate := p.ageEstimate
            gender_estimate := p.genderEstimate, image_id := p.imageId
            processing_time_ms := p.processingTimeMs } : Emotion)]).map (·.emotion_type) := by
    rw [List.map_append]
    exact List.mem_append_right _ (by simp)
  refine ⟨_, rowFor_find _ p.emotionType hmm, ?_, ?_, ?_⟩
  · show ((db.emotions.filter (fun e => e.session_id == p.sessionId) ++
        [({ id := db.nextEmotionId, session_id := p.sessionId,
            emotion_type := p.emotionType, confidence_score := p.confidenceScore,
            timestamp := now, age_estimate := p.ageEstimate,
            gender_estimate := p.genderEstimate, image_id := p.imageId,
            processing_time_ms := p.processingTimeMs } : Emotion)]).filter
          (fun e => e.emotion_type == p.emotionType)).length
      = ((db.emotions.filter (fun e => e.session_id == p.sessionId)).filter
          (fun e => e.emotion_type == p.emotionType)).length + 1
    rw [List.filter_append, List.length_append]
    simp
  · rfl
  · rfl

/-- Scenario A evidence for C4: after `{happy, 0.92}` then `{happy, 0.80}`
on the fresh `Demo` session, the `happy` summary row has count 2 and average
confidence 0.86, and the session counter reads 2. -/
theorem record_roundtrip_summary_witness :
    validateEmotionPayload (happyPayload (mkRat 80 100)) = none ∧
    (∃ r, (summaryGroups scenarioADB2 1).find? (fun x => x.emotion_type == "happy") = some r ∧
       r.count = 2 ∧ r.avg_confidence = mkRat 86 100) ∧
    scenarioADB2.sessions.map (fun s => s.total_detections) = [some 2] := by
  refine ⟨by decide, ?_, by decide⟩
  obtain ⟨r, h1, h2, h3, h4⟩ :=
    record_roundtrip_summary scenarioADB1 (happyPayload (mkRat 80 100)) 120 (by decide)
      ⟨{ id := 1, user_id := none, session_name := some "Demo", start_time := 100
         end_time := none, duration_seconds := none, total_detections := some 1
         accuracy_score := none, is_completed := false }, by decide, by decide⟩
  have hc2 : r.count = 2 := by rw [h2]; decide
  refine ⟨r, h1, hc2, ?_⟩
  rw [h4, hc2]
  show (mkRat 92 100 + (mkRat 80 100 + 0)) / ((2 : Nat) : ℚ) = mkRat 86 100
  simp only [Rat.mkRat_eq_div]
  push_cast
  norm_num

/-- Claim C10: no service operation ever writes the `emotion_summaries`
table, and the summary served to callers is a full re-aggregation — for
every store, session and label, the group row the summary query yields for
that label is exactly the `COUNT`/`AVG`/`MIN`/`MAX` aggregate of the
currently stored observations carrying it (and is absent exactly when no
stored observation carries it), so no separately materialized summary state
exists that could go stale. -/
theorem summary_is_recomputed_full_aggregation :
    (∀ (db : DB) (op : Op), (applyOp db op).emotion_summaries = db.emotion_summaries) ∧
    (∀ (db : DB) (sid : Int) (t : String),
      (summaryGroups db sid).find? (fun r => r.emotion_type == t)
        = specSummaryAggregate db sid t) := by
  constructor
  · intro db op
    cases op with
    | registerUser r =>
      show (postApiAuthRegister db r).2.emotion_summaries = _
      unfold postApiAuthRegister
      rcases validateRegister r with _ | m
      · dsimp only
        split_ifs <;> rfl
      · rfl
    | loginUser e pw now =>
      show (postApiAuthLogin db e pw now).2.emotion_summaries = _
      unfold postApiAuthLogin
      split_ifs
      all_goals try rfl
      rcases findUserByEmail db e with _ | u
      · rfl
      · dsimp only
        split_ifs <;> rfl
    | createSessionOp n now =>
      show (postApiSessions db n now).2.emotion_summaries = _
      unfold postApiSessions
      split_ifs <;> rfl
    | endSessionOp sid b => rfl
    | recordEmotion p now =>
      show (postApiEmotions db p now).2.emotion_summaries = _
      rcases hv : validateEmotionPayload p with _ | m
      · rcases hf : db.sessions.find? (fun s => s.id == p.sessionId) with _ | s₀
        · rw [postApiEmotions_find_none db p now hv hf]
        · rw [postApiEmotions_found db p now s₀ hv hf]
      · rw [postApiEmotions_of_validation db p now m hv]
    | removeEmotion i =>
      show (deleteApiEmotionsId db i).2.emotion_summaries = _
      rcases hf : db.emotions.find? (fun e => e.id == i) with _ | e
      · rw [deleteApiEmotionsId_none db i hf]
      · rw [deleteApiEmotionsId_found db i e hf]
  · intro db sid t
    have hobs : db.emotions.filter (fun e => e.session_id == sid && e.emotion_type == t)
        = (sessionEmotions db sid).filter (fun e => e.emotion_type == t) := by
      unfold sessionEmotions
      rw [List.filter_filter]
      exact List.filter_congr (fun e _ => Bool.and_comm _ _)
    by_cases ht : t ∈ (sessionEmotions db sid).map (·.emotion_type)
    · have h1 : (summaryGroups db sid).find? (fun r => r.emotion_type == t)
          = some (summaryRowFor (sessionEmotions db sid) t) :=
        rowFor_find (sessionEmotions db sid) t ht
      rw [h1]
      unfold specSummaryAggregate
      rw [hobs]
      have hne : ((sessionEmotions db sid).filter (fun e => e.emotion_type == t)).isEmpty
          = false := by
        obtain ⟨e, he, hte⟩ := List.mem_map.mp ht
        have hef : e ∈ (sessionEmotions db sid).filter (fun x => x.emotion_type == t) :=
          List.mem_filter.mpr ⟨he, by simp [hte]⟩
        cases hE : ((sessionEmotions db sid).filter (fun e => e.emotion_type == t)).isEmpty
        · rfl
        · exact absurd (List.isEmpty_iff.mp hE) (List.ne_nil_of_mem hef)
      rw [if_neg (by simp [hne])]
      rfl
    · have h1 : (summaryGroups db sid).find? (fun r => r.emotion_type == t) = none := by
        refine List.find?_eq_none.mpr (fun r hr => ?_)
        obtain ⟨t', ht', rfl⟩ := List.mem_map.mp hr
        show ¬ ((summaryRowFor (sessionEmotions db sid) t').emotion_type == t) = true
        simp only [beq_iff_eq]
        show ¬ t' = t
        intro he
        apply ht
        rw [← he]
        exact List.mem_dedup.mp ht'
      rw [h1]
      unfold specSummaryAggregate
      rw [hobs]
      have hobs0 : (sessionEmotions db sid).filter (fun e => e.emotion_type == t) = [] := by
        rw [List.filter_eq_nil_iff]
        intro e he hcontra
        apply ht
        have : e.emotion_type = t := by simpa using hcontra
        rw [← this]
        exact List.mem_map_of_mem (·.emotion_type) he
      rw [hobs0]
      rfl

end EmotionService
